import Mathlib

/-!
Verification development for the gps-dashboard cost-aggregation route.

The embedding follows the /api/costs route handler (the four-estimator
version: getDateRange, getVAPICosts, getCloudRunCosts, getHetznerCostsReal,
getOpenClawCosts, GET).  JavaScript Date values are modelled as plain
calendar field records in a timezone-less clock, with an explicit
conversion to epoch milliseconds mirroring the ECMAScript MakeDay /
MakeDate arithmetic (proleptic Gregorian, restricted to non-negative
years).  Floating point numbers are modelled as exact rationals.  Remote
calls are modelled by an explicit outcome parameter (network exception,
non-success HTTP status, or a parsed body), so every estimator is a total
function of its configuration, the remote outcome, the period parameter
and the current instant.
-/

namespace GpsDashboard

/-- Milliseconds in one hour (1000 * 60 * 60). -/
def msPerHour : Int := 3600000

/-- Milliseconds in one day (24 * 60 * 60 * 1000). -/
def msPerDay : Int := 86400000

/-- Gregorian leap-year test, as in the ECMAScript calendar. -/
def isLeap (y : Int) : Bool := (y % 4 == 0 && y % 100 != 0) || y % 400 == 0

/-- Cumulative day count before (0-based) month `m` of a year, with the
leap adjustment from March onward.  Months 12 and above do not occur in
the embedded code (the route only ever builds dates with in-range
months). -/
def cumDays (leap : Bool) (m : Nat) : Int :=
  let l : Int := if leap then 1 else 0
  match m with
  | 0 => 0
  | 1 => 31
  | 2 => 59 + l
  | 3 => 90 + l
  | 4 => 120 + l
  | 5 => 151 + l
  | 6 => 181 + l
  | 7 => 212 + l
  | 8 => 243 + l
  | 9 => 273 + l
  | 10 => 304 + l
  | _ => 334 + l

/-- Number of days of (0-based) month `m`. -/
def daysInMonth (leap : Bool) (m : Nat) : Int :=
  match m with
  | 0 => 31
  | 1 => if leap then 29 else 28
  | 2 => 31
  | 3 => 30
  | 4 => 31
  | 5 => 30
  | 6 => 31
  | 7 => 31
  | 8 => 30
  | 9 => 31
  | 10 => 30
  | _ => 31

/-- Days contained in the years `0, 1, ..., y - 1` of the proleptic
Gregorian calendar (year 0 is a leap year).  Valid for `0 ≤ y`, which
covers every year the route can construct. -/
def daysBeforeYear (y : Int) : Int :=
  365 * y + (y + 3) / 4 - (y + 99) / 100 + (y + 399) / 400

/-- ECMAScript MakeDay: the day number of year `y`, (0-based, in-range)
month `m`, day-of-month `d`.  `d` may be out of range (`setDate`
normalises it arithmetically, e.g. `d - 7` may be negative). -/
def mkDay (y m d : Int) : Int :=
  daysBeforeYear y + cumDays (isLeap y) m.toNat + (d - 1)

/-- Calendar field record standing for a JavaScript `Date` in a
timezone-less clock: `month` is 0-based as in JS. -/
structure JSDate where
  year : Int
  month : Int
  day : Int
  hour : Int
  minute : Int
  second : Int
  ms : Int
deriving DecidableEq, Repr

/-- Milliseconds elapsed since local midnight. -/
def timeOfDayMs (t : JSDate) : Int :=
  ((t.hour * 60 + t.minute) * 60 + t.second) * 1000 + t.ms

/-- ECMAScript MakeDate: epoch milliseconds of the instant. -/
def toMillis (t : JSDate) : Int :=
  mkDay t.year t.month t.day * msPerDay + timeOfDayMs t

/-- Well-formed calendar fields (non-negative year, in-range month, day
and time-of-day fields). -/
def JSDate.Valid (t : JSDate) : Prop :=
  0 ≤ t.year ∧ 0 ≤ t.month ∧ t.month < 12 ∧
  1 ≤ t.day ∧ t.day ≤ daysInMonth (isLeap t.year) t.month.toNat ∧
  0 ≤ t.hour ∧ t.hour < 24 ∧ 0 ≤ t.minute ∧ t.minute < 60 ∧
  0 ≤ t.second ∧ t.second < 60 ∧ 0 ≤ t.ms ∧ t.ms < 1000

instance (t : JSDate) : Decidable t.Valid := by
  unfold JSDate.Valid
  infer_instance

/-- Result of `getDateRange`: a pair of epoch-millisecond instants. -/
structure DateRange where
  start : Int
  «end» : Int
deriving DecidableEq, Repr

/-- Embedding of `getDateRange(period)`.  Both `end = new Date()` and
`start = new Date()` denote the current instant `now`; the `switch`
mutates `start`:
`today` runs `start.setHours(0,0,0,0)`;
`week` runs `start.setDate(start.getDate() - 7)`;
`month` runs `start.setDate(1); start.setHours(0,0,0,0)`;
`all` runs `start.setFullYear(2020)` (year replaced, month, day and
time-of-day kept).  The runtime period value is an arbitrary string (the
TypeScript annotation is erased); an unrecognised value falls through the
`switch`, leaving `start` at the current instant. -/
def getDateRange (period : String) (now : JSDate) : DateRange :=
  match period with
  | "today" => { start := mkDay now.year now.month now.day * msPerDay, «end» := toMillis now }
  | "week" => { start := mkDay now.year now.month (now.day - 7) * msPerDay + timeOfDayMs now,
                «end» := toMillis now }
  | "month" => { start := mkDay now.year now.month 1 * msPerDay, «end» := toMillis now }
  | "all" => { start := mkDay 2020 now.month now.day * msPerDay + timeOfDayMs now,
               «end» := toMillis now }
  | _ => { start := toMillis now, «end» := toMillis now }

/-- JavaScript `Math.round`: round half toward positive infinity. -/
def jsRound (q : ℚ) : Int := ⌊q + 1 / 2⌋

/-- Environment configuration read by the route
(`process.env.VAPI_API_KEY || ''` and
`process.env.HETZNER_API_TOKEN || ''`): an unset variable is the empty
string, and the guards test falsiness of the string. -/
structure Config where
  vapiApiKey : String
  hetznerApiToken : String
deriving DecidableEq, Repr

/-- Itemised VAPI cost breakdown.  The accumulator object starts at all
zeros; the fallback `breakdown: {}` is observationally the all-zero
record (each absent field reads as 0 downstream via `|| 0` / falsiness). -/
structure VapiCostBreakdown where
  transport : ℚ
  stt : ℚ
  llm : ℚ
  tts : ℚ
  vapi : ℚ
deriving DecidableEq, Repr

/-- All-zero breakdown record. -/
def zeroBreakdown : VapiCostBreakdown :=
  { transport := 0, stt := 0, llm := 0, tts := 0, vapi := 0 }

/-- One call record returned by the VAPI metering API.  `cost` is read as
`call.cost || 0` (absent means 0); an absent `costBreakdown` skips the
accumulation, and absent sub-fields are already defaulted to 0 here since
the code reads each one as `... || 0`. -/
structure VapiCall where
  cost : Option ℚ
  costBreakdown : Option VapiCostBreakdown
deriving DecidableEq, Repr

/-- Parsed body of the VAPI response: either not an array (error payload)
or the list of call records. -/
inductive VapiBody where
  | nonArray : VapiBody
  | calls : List VapiCall → VapiBody
deriving DecidableEq, Repr

/-- Outcome of the VAPI fetch: a thrown network exception, a non-success
HTTP status, or a parsed body. -/
inductive VapiOutcome where
  | exn : VapiOutcome
  | httpError : Int → VapiOutcome
  | ok : VapiBody → VapiOutcome
deriving DecidableEq, Repr

/-- True on every outcome that is not a well-formed call list. -/
def VapiOutcome.isFailure : VapiOutcome → Bool
  | .ok (.calls _) => false
  | _ => true

/-- Estimate returned by the VAPI estimator.  `isRealData` is never set
by this version of the route, so it is always the JSON-absent value,
which every consumer coerces to `false`. -/
structure VapiResult where
  total : ℚ
  calls : Nat
  breakdown : VapiCostBreakdown
  limitedTo14Days : Bool
  isRealData : Bool
  error : Option String
deriving DecidableEq, Repr

/-- The 14-day history cap in milliseconds
(`maxHistoryDays * 24 * 60 * 60 * 1000`). -/
def vapiMaxHistoryMs : Int := 14 * 24 * 60 * 60 * 1000

/-- Effective query start sent upstream:
`new Date(Math.max(start.getTime(), end.getTime() - maxHistoryMs))`. -/
def vapiEffectiveStart (r : DateRange) : Int :=
  max r.start (r.«end» - vapiMaxHistoryMs)

/-- Loop body of the call accumulation: adds `call.cost || 0` to the
running total and, when `call.costBreakdown` exists, each sub-field to
the breakdown accumulator. -/
def vapiAccum (acc : ℚ × VapiCostBreakdown) (c : VapiCall) : ℚ × VapiCostBreakdown :=
  let total := acc.1 + c.cost.getD 0
  let b := acc.2
  match c.costBreakdown with
  | none => (total, b)
  | some cb =>
      (total,
       { transport := b.transport + cb.transport
         stt := b.stt + cb.stt
         llm := b.llm + cb.llm
         tts := b.tts + cb.tts
         vapi := b.vapi + cb.vapi })

/-- Embedding of `getVAPICosts(period)`.  Without a key the estimator
returns the zero fallback before any fetch.  With a key it resolves the
date range, caps the lookback window at 14 days, issues the fetch, and
on any failure (exception, non-success status, non-array body) returns a
zero estimate; note the `catch` branch resets `limitedTo14Days` to
`false`. -/
def getVAPICosts (cfg : Config) (outcome : VapiOutcome) (period : String) (now : JSDate) :
    VapiResult :=
  if cfg.vapiApiKey = "" then
    { total := 0, calls := 0, breakdown := zeroBreakdown, limitedTo14Days := false,
      isRealData := false, error := none }
  else
    let r := getDateRange period now
    let effectiveStart := vapiEffectiveStart r
    let limitedTo14Days := decide (effectiveStart > r.start)
    match outcome with
    | .exn =>
        { total := 0, calls := 0, breakdown := zeroBreakdown, limitedTo14Days := false,
          isRealData := false, error := some "exception" }
    | .httpError _ =>
        { total := 0, calls := 0, breakdown := zeroBreakdown, limitedTo14Days := limitedTo14Days,
          isRealData := false, error := some "API error" }
    | .ok .nonArray =>
        { total := 0, calls := 0, breakdown := zeroBreakdown, limitedTo14Days := limitedTo14Days,
          isRealData := false, error := some "Invalid response" }
    | .ok (.calls cs) =>
        let acc := cs.foldl vapiAccum (0, zeroBreakdown)
        { total := acc.1, calls := cs.length, breakdown := acc.2,
          limitedTo14Days := limitedTo14Days, isRealData := false, error := none }

/-- GCP price constants used by the route. -/
structure GCPPricing where
  e2MediumHourly : ℚ
  cloudRunCpuPerHour : ℚ
  cloudRunRequestsPerMillion : ℚ
deriving DecidableEq, Repr

/-- The `GCP_PRICING` constant object. -/
def GCP_PRICING : GCPPricing :=
  { e2MediumHourly := 0.034
    cloudRunCpuPerHour := 0.0864
    cloudRunRequestsPerMillion := 0.40 }

/-- Estimate returned by the Cloud Run estimator; `isRealData` is never
set (JSON-absent, coerced to `false` by consumers). -/
structure CloudRunResult where
  total : ℚ
  requests : Int
  cpuHours : ℚ
  isRealData : Bool
deriving DecidableEq, Repr

/-- Embedding of `getCloudRunCosts(period)`: a purely static linear
estimate from the period length. -/
def getCloudRunCosts (period : String) (now : JSDate) : CloudRunResult :=
  let r := getDateRange period now
  let hours : ℚ := ((r.«end» - r.start : Int) : ℚ) / (1000 * 60 * 60)
  let daysInPeriod := hours / 24
  let estimatedCpuHours := daysInPeriod * 0.5
  let estimatedRequests := daysInPeriod * 200
  let cpuCost := estimatedCpuHours * GCP_PRICING.cloudRunCpuPerHour
  let requestCost := (estimatedRequests / 1000000) * GCP_PRICING.cloudRunRequestsPerMillion
  { total := cpuCost + requestCost
    requests := jsRound estimatedRequests
    cpuHours := estimatedCpuHours
    isRealData := false }

/-- One per-location price entry of a Hetzner server type, already
parsed: the route reads `parseFloat(p.price_hourly.gross)` and
`parseFloat(p.price_monthly.gross)` from the decimal strings of the
inventory payload. -/
structure HetznerPrice where
  location : String
  priceHourlyGross : ℚ
  priceMonthlyGross : ℚ
deriving DecidableEq, Repr

/-- Server type record with its price list. -/
structure HetznerServerType where
  name : String
  cores : Int
  memory : Int
  disk : Int
  prices : List HetznerPrice
deriving DecidableEq, Repr

/-- One server of the inventory payload.  `created` is
`new Date(server.created)`; `locationName` is
`server.datacenter.location.name`; `ipv4` is
`server.public_net?.ipv4?.ip` (absent means undefined). -/
structure HetznerServer where
  name : String
  created : JSDate
  server_type : HetznerServerType
  locationName : String
  locationDescription : String
  ipv4 : Option String
deriving DecidableEq, Repr

/-- Price entry resolution:
`server_type.prices.find(p => p.location === location.name) || prices[0]`
(undefined when the price list is empty). -/
def resolvedPricing (st : HetznerServerType) (loc : String) : Option HetznerPrice :=
  match st.prices.find? (fun p => p.location == loc) with
  | some p => some p
  | none => st.prices.head?

/-- Resolved hourly price: `parseFloat(locationPricing?.price_hourly.gross || '0')`. -/
def serverPriceHourly (s : HetznerServer) : ℚ :=
  match resolvedPricing s.server_type s.locationName with
  | some p => p.priceHourlyGross
  | none => 0

/-- Resolved monthly price: `parseFloat(locationPricing?.price_monthly.gross || '0')`. -/
def serverPriceMonthly (s : HetznerServer) : ℚ :=
  match resolvedPricing s.server_type s.locationName with
  | some p => p.priceMonthlyGross
  | none => 0

/-- Per-server cost of the loop body of `getHetznerCostsReal`:
`effectiveStart = serverCreated > start ? serverCreated : start`; when
`effectiveStart < end`, the `month` branch caps hours-since
`max(serverCreated, startOfCurrentMonth)` times the hourly rate at the
monthly rate, the `all` branch bills whole elapsed months at the monthly
rate plus the capped partial current month measured from the start of
the current month, and every other period bills the hours of
`[effectiveStart, end)` at the hourly rate. -/
def serverPeriodCost (period : String) (r : DateRange) (now : JSDate)
    (server : HetznerServer) : ℚ :=
  let priceHourly := serverPriceHourly server
  let priceMonthly := serverPriceMonthly server
  let serverCreated : Int := toMillis server.created
  let effectiveStart : Int := max serverCreated r.start
  if effectiveStart < r.«end» then
    let hoursInPeriod : ℚ := ((r.«end» - effectiveStart : Int) : ℚ) / (1000 * 60 * 60)
    if period = "month" then
      let startOfMonth : Int := mkDay now.year now.month 1 * msPerDay
      let effectiveMonthStart : Int := max serverCreated startOfMonth
      let hoursThisMonth : ℚ := ((toMillis now - effectiveMonthStart : Int) : ℚ) / (1000 * 60 * 60)
      min (hoursThisMonth * priceHourly) priceMonthly
    else if period = "all" then
      let monthsRunning : Int :=
        (now.year - server.created.year) * 12 + (now.month - server.created.month)
      (monthsRunning : ℚ) * priceMonthly +
        min ((((toMillis now - mkDay now.year now.month 1 * msPerDay : Int) : ℚ) /
              (1000 * 60 * 60)) * priceHourly)
          priceMonthly
    else
      hoursInPeriod * priceHourly
  else 0

/-- One entry of the `servers` detail array in the Hetzner estimate. -/
structure HetznerServerDetail where
  name : String
  type : String
  specs : String
  location : String
  ip : String
  cost : ℚ
  monthlyRate : ℚ
deriving DecidableEq, Repr

/-- Estimate returned by the Hetzner estimator.  `lastUpdated` is
`new Date().toISOString()`, modelled as the current instant. -/
structure HetznerResult where
  total : ℚ
  uptime : ℚ
  machineType : String
  provider : String
  specs : String
  ip : String
  monthlyRate : ℚ
  isRealData : Bool
  servers : List HetznerServerDetail
  lastUpdated : JSDate
deriving DecidableEq, Repr

/-- Outcome of the Hetzner inventory fetch; the parsed body is the
server list `data.servers || []`. -/
inductive HetznerOutcome where
  | exn : HetznerOutcome
  | httpError : Int → HetznerOutcome
  | ok : List HetznerServer → HetznerOutcome
deriving DecidableEq, Repr

/-- True on every outcome that is not a parsed inventory body. -/
def HetznerOutcome.isFailure : HetznerOutcome → Bool
  | .ok _ => false
  | _ => true

/-- Spec string `c vCPU, mGB RAM, dGB SSD` of a server detail entry. -/
def serverSpecsFull (st : HetznerServerType) : String :=
  toString st.cores ++ " vCPU, " ++ toString st.memory ++ "GB RAM, " ++
    toString st.disk ++ "GB SSD"

/-- Spec string `c vCPU, mGB RAM` of the headline server. -/
def serverSpecsShort (st : HetznerServerType) : String :=
  toString st.cores ++ " vCPU, " ++ toString st.memory ++ "GB RAM"

/-- Embedding of `getHetznerCostsReal(period)`.  Without a token it
returns the zero fallback before any fetch; a non-success status throws
inside the `try` and lands, like a network exception, in the `catch`
fallback; a parsed inventory is folded into per-server period costs and
the headline fields of `servers[0]`. -/
def getHetznerCostsReal (cfg : Config) (outcome : HetznerOutcome) (period : String)
    (now : JSDate) : HetznerResult :=
  if cfg.hetznerApiToken = "" then
    { total := 0, uptime := 99.9, machineType := "Unknown", provider := "Hetzner",
      specs := "N/A", ip := "N/A", monthlyRate := 0, isRealData := false,
      servers := [], lastUpdated := now }
  else
    match outcome with
    | .exn | .httpError _ =>
        { total := 0, uptime := 99.9, machineType := "Error", provider := "Hetzner",
          specs := "Error loading", ip := "N/A", monthlyRate := 0, isRealData := false,
          servers := [], lastUpdated := now }
    | .ok servers =>
        let r := getDateRange period now
        let totalCost := servers.foldl (fun acc s => acc + serverPeriodCost period r now s) 0
        let serverDetails := servers.map (fun s =>
          { name := s.name
            type := s.server_type.name.toUpper
            specs := serverSpecsFull s.server_type
            location := s.locationDescription
            ip := s.ipv4.getD "N/A"
            cost := serverPeriodCost period r now s
            monthlyRate := serverPriceMonthly s : HetznerServerDetail })
        let chatwootServer := servers.head?
        { total := totalCost
          uptime := 99.9
          machineType :=
            (match chatwootServer with
             | some s => s.server_type.name.toUpper
             | none => "Unknown")
          provider := "Hetzner"
          specs :=
            (match chatwootServer with
             | some s => serverSpecsShort s.server_type
             | none => "N/A")
          ip :=
            (match chatwootServer with
             | some s => s.ipv4.getD "N/A"
             | none => "N/A")
          monthlyRate :=
            (match chatwootServer with
             | some s => serverPriceMonthly s
             | none => 0)
          isRealData := true
          servers := serverDetails
          lastUpdated := now }

/-- Estimate returned by the OpenClaw estimator; `isRealData` is never
set by the route (JSON-absent, coerced to `false` by consumers). -/
structure OpenClawResult where
  total : ℚ
  uptime : ℚ
  machineType : String
  region : String
  isRealData : Bool
deriving DecidableEq, Repr

/-- Embedding of `getOpenClawCosts(period)`: assumed continuous
operation of an e2-medium instance billed at the configured hourly
rate. -/
def getOpenClawCosts (period : String) (now : JSDate) : OpenClawResult :=
  let r := getDateRange period now
  let hours : ℚ := ((r.«end» - r.start : Int) : ℚ) / (1000 * 60 * 60)
  { total := hours * GCP_PRICING.e2MediumHourly
    uptime := 99.9
    machineType := "e2-medium"
    region := "us-central1"
    isRealData := false }

/-- JSON document returned by the aggregation endpoint on success. -/
structure CostsResponse where
  vapi : VapiResult
  cloudRun : CloudRunResult
  chatwoot : HetznerResult
  openclaw : OpenClawResult
  totalMonth : ℚ
  period : String
  timestamp : JSDate
deriving DecidableEq, Repr

/-- Period query-parameter handling:
`(searchParams.get('period') as Period) || 'month'`.  A missing
parameter is `null` and the empty string is falsy, so both yield the
default; every other string passes through unvalidated. -/
def parsePeriodParam (p : Option String) : String :=
  match p with
  | none => "month"
  | some s => if s = "" then "month" else s

/-- Success body of the `GET` handler: the four estimates (awaited via
`Promise.all`), the grand total as the literal sum of their `total`
fields, the echoed period and the generation timestamp. -/
def getCostsResponse (cfg : Config) (vapiOutcome : VapiOutcome)
    (hetznerOutcome : HetznerOutcome) (periodParam : Option String) (now : JSDate) :
    CostsResponse :=
  let period := parsePeriodParam periodParam
  let vapi := getVAPICosts cfg vapiOutcome period now
  let cloudRun := getCloudRunCosts period now
  let chatwoot := getHetznerCostsReal cfg hetznerOutcome period now
  let openclaw := getOpenClawCosts period now
  { vapi := vapi
    cloudRun := cloudRun
    chatwoot := chatwoot
    openclaw := openclaw
    totalMonth := vapi.total + cloudRun.total + chatwoot.total + openclaw.total
    period := period
    timestamp := now }

/-- Embedding of the route handler `GET`.  The `catch` branch
(`500`-style generic error) is unreachable here because every estimator
absorbs its own remote failure and is a total function, so the handler
always produces the success body. -/
def GET (cfg : Config) (vapiOutcome : VapiOutcome) (hetznerOutcome : HetznerOutcome)
    (periodParam : Option String) (now : JSDate) : Except String CostsResponse :=
  Except.ok (getCostsResponse cfg vapiOutcome hetznerOutcome periodParam now)

/-- Modelled from the spec: the specification describes a currency
conversion, absent from the source, in which the virtual-machine host
estimator multiplies each server cost, computed in the provider native
currency, by a fixed constant exchange rate before including it in the
estimate total.  This definition follows that wording for an arbitrary
fixed rate, to be compared with the implementation. -/
def hetznerConvertedTotalSpec (rate : ℚ) (period : String) (r : DateRange) (now : JSDate)
    (servers : List HetznerServer) : ℚ :=
  servers.foldl (fun acc s => acc + rate * serverPeriodCost period r now s) 0

/-- The VAPI fallback returned before any fetch when no key is
configured. -/
def vapiNoKeyResult : VapiResult :=
  { total := 0, calls := 0, breakdown := zeroBreakdown, limitedTo14Days := false,
    isRealData := false, error := none }

/-- The Hetzner fallback returned before any fetch when no token is
configured. -/
def hetznerNoTokenResult (now : JSDate) : HetznerResult :=
  { total := 0, uptime := 99.9, machineType := "Unknown", provider := "Hetzner",
    specs := "N/A", ip := "N/A", monthlyRate := 0, isRealData := false,
    servers := [], lastUpdated := now }

/-- The static Cloud Run formula: a linear-in-days estimate priced from
the period length alone. -/
def cloudRunStaticTotal (period : String) (now : JSDate) : ℚ :=
  let r := getDateRange period now
  let hours : ℚ := ((r.«end» - r.start : Int) : ℚ) / (1000 * 60 * 60)
  (hours / 24 * 0.5) * GCP_PRICING.cloudRunCpuPerHour +
    (hours / 24 * 200 / 1000000) * GCP_PRICING.cloudRunRequestsPerMillion

/-- The static OpenClaw formula: continuous uptime at the e2-medium
hourly rate. -/
def openClawStaticTotal (period : String) (now : JSDate) : ℚ :=
  let r := getDateRange period now
  ((r.«end» - r.start : Int) : ℚ) / (1000 * 60 * 60) * GCP_PRICING.e2MediumHourly

/-- Elapsed hours of the current month at `now`, as the route measures
them in the monthly proration branch. -/
def elapsedMonthHours (now : JSDate) : ℚ :=
  ((toMillis now - mkDay now.year now.month 1 * msPerDay : Int) : ℚ) / (1000 * 60 * 60)

/-! Concrete fixtures used by counterexamples and witnesses. -/

/-- Configuration with neither credential set. -/
def cfgNone : Config := { vapiApiKey := "", hetznerApiToken := "" }

/-- Configuration with only the VAPI key set. -/
def cfgKey : Config := { vapiApiKey := "k", hetznerApiToken := "" }

/-- Configuration with only the Hetzner token set. -/
def cfgTok : Config := { vapiApiKey := "", hetznerApiToken := "tok" }

/-- January 20 2025, midnight. -/
def dJan20 : JSDate := ⟨2025, 0, 20, 0, 0, 0, 0⟩

/-- June 20 2025, midnight. -/
def dJun20 : JSDate := ⟨2025, 5, 20, 0, 0, 0, 0⟩

/-- January 1 2025, midnight. -/
def dJan1 : JSDate := ⟨2025, 0, 1, 0, 0, 0, 0⟩

/-- June 1 2025, midnight. -/
def dJun1 : JSDate := ⟨2025, 5, 1, 0, 0, 0, 0⟩

/-- January 1 2019, midnight (an instant before the fixed anchor year of
the `all` period). -/
def d2019 : JSDate := ⟨2019, 0, 1, 0, 0, 0, 0⟩

/-- January 28 2025 at 18:40:04.800, exactly 666.668 hours after the
month start. -/
def dHour666 : JSDate := ⟨2025, 0, 28, 18, 40, 4, 800⟩

/-- January 5 2025, midnight (96 hours after the month start). -/
def dJan5 : JSDate := ⟨2025, 0, 5, 0, 0, 0, 0⟩

/-- January 26 2025, midnight (600 hours after the month start). -/
def dJan26 : JSDate := ⟨2025, 0, 26, 0, 0, 0, 0⟩

/-- Server created June 10 2025 (mid-month), hourly rate 0.01, monthly
rate 100. -/
def srvMidMonth : HetznerServer :=
  { name := "srv-mid", created := ⟨2025, 5, 10, 0, 0, 0, 0⟩,
    server_type := { name := "cx22", cores := 2, memory := 4, disk := 40,
                     prices := [{ location := "ash", priceHourlyGross := 1 / 100,
                                  priceMonthlyGross := 100 }] },
    locationName := "ash", locationDescription := "Ashburn", ipv4 := none }

/-- Server created June 18 2025, hourly rate 0.01, monthly rate 100. -/
def srvJun18 : HetznerServer :=
  { name := "srv-w", created := ⟨2025, 5, 18, 0, 0, 0, 0⟩,
    server_type := { name := "cx22", cores := 2, memory := 4, disk := 40,
                     prices := [{ location := "ash", priceHourlyGross := 1 / 100,
                                  priceMonthlyGross := 100 }] },
    locationName := "ash", locationDescription := "Ashburn", ipv4 := none }

/-- Server created exactly at the January 2025 month start, hourly rate
0.0075, monthly rate 5.00 (the worked example of the claim). -/
def srvMonthStart : HetznerServer :=
  { name := "srv-ms", created := ⟨2025, 0, 1, 0, 0, 0, 0⟩,
    server_type := { name := "cx22", cores := 2, memory := 4, disk := 40,
                     prices := [{ location := "ash", priceHourlyGross := 3 / 400,
                                  priceMonthlyGross := 5 }] },
    locationName := "ash", locationDescription := "Ashburn", ipv4 := none }

/-- Server created at the January 2025 month start, hourly rate 0.01,
monthly rate 5.00 (cost hits the monthly cap at `dJan26`). -/
def srvCap : HetznerServer :=
  { name := "srv-cap", created := ⟨2025, 0, 1, 0, 0, 0, 0⟩,
    server_type := { name := "cx22", cores := 2, memory := 4, disk := 40,
                     prices := [{ location := "ash", priceHourlyGross := 1 / 100,
                                  priceMonthlyGross := 5 }] },
    locationName := "ash", locationDescription := "Ashburn", ipv4 := none }

/-! Helper lemmas shared by the claim theorems. -/

/-- Evaluation of `getDateRange` at the `today` literal. -/
theorem getDateRange_today (now : JSDate) :
    getDateRange "today" now =
      { start := mkDay now.year now.month now.day * msPerDay, «end» := toMillis now } := rfl

/-- Evaluation of `getDateRange` at the `week` literal. -/
theorem getDateRange_week (now : JSDate) :
    getDateRange "week" now =
      { start := mkDay now.year now.month (now.day - 7) * msPerDay + timeOfDayMs now,
        «end» := toMillis now } := rfl

/-- Evaluation of `getDateRange` at the `month` literal. -/
theorem getDateRange_month (now : JSDate) :
    getDateRange "month" now =
      { start := mkDay now.year now.month 1 * msPerDay, «end» := toMillis now } := rfl

/-- Evaluation of `getDateRange` at the `all` literal. -/
theorem getDateRange_all (now : JSDate) :
    getDateRange "all" now =
      { start := mkDay 2020 now.month now.day * msPerDay + timeOfDayMs now,
        «end» := toMillis now } := rfl

/-- A period string outside the enumeration falls through the switch. -/
theorem getDateRange_default (period : String) (now : JSDate)
    (h1 : period ≠ "today") (h2 : period ≠ "week") (h3 : period ≠ "month")
    (h4 : period ≠ "all") :
    getDateRange period now = { start := toMillis now, «end» := toMillis now } := by
  unfold getDateRange
  split <;> simp_all

/-- Evaluation of `serverPeriodCost` at the `month` literal. -/
theorem serverPeriodCost_month_eval (r : DateRange) (now : JSDate) (s : HetznerServer) :
    serverPeriodCost "month" r now s =
      if max (toMillis s.created) r.start < r.«end» then
        min (((toMillis now - max (toMillis s.created)
              (mkDay now.year now.month 1 * msPerDay) : Int) : ℚ) / (1000 * 60 * 60) *
            serverPriceHourly s)
          (serverPriceMonthly s)
      else 0 := by
  simp [serverPeriodCost]

/-- Evaluation of `serverPeriodCost` at the `all` literal. -/
theorem serverPeriodCost_all_eval (r : DateRange) (now : JSDate) (s : HetznerServer) :
    serverPeriodCost "all" r now s =
      if max (toMillis s.created) r.start < r.«end» then
        (((now.year - s.created.year) * 12 + (now.month - s.created.month) : Int) : ℚ) *
            serverPriceMonthly s +
          min ((((toMillis now - mkDay now.year now.month 1 * msPerDay : Int) : ℚ) /
                (1000 * 60 * 60)) * serverPriceHourly s)
            (serverPriceMonthly s)
      else 0 := by
  simp [serverPeriodCost]

/-- Evaluation of `serverPeriodCost` at any period other than `month`
and `all`. -/
theorem serverPeriodCost_other_eval (period : String) (r : DateRange) (now : JSDate)
    (s : HetznerServer) (h1 : period ≠ "month") (h2 : period ≠ "all") :
    serverPeriodCost period r now s =
      if max (toMillis s.created) r.start < r.«end» then
        ((r.«end» - max (toMillis s.created) r.start : Int) : ℚ) / (1000 * 60 * 60) *
          serverPriceHourly s
      else 0 := by
  simp [serverPeriodCost, h1, h2]

/-- Time-of-day milliseconds are non-negative on valid dates. -/
theorem timeOfDayMs_nonneg (t : JSDate) (h : t.Valid) : 0 ≤ timeOfDayMs t := by
  obtain ⟨-, -, -, -, -, h1, -, h2, -, h3, -, h4, -⟩ := h
  unfold timeOfDayMs
  omega

/-- The cumulative month offsets of two leap flags differ by at most one
day. -/
theorem cumDays_le_add_one (l1 l2 : Bool) (m : Nat) :
    cumDays l1 m ≤ cumDays l2 m + 1 := by
  rcases m with _ | _ | _ | _ | _ | _ | _ | _ | _ | _ | _ | m <;>
    cases l1 <;> cases l2 <;> simp [cumDays]

/-- Day numbers are monotone in the year (for years at or after 2020,
the anchor used by the `all` period). -/
theorem mkDay_year_mono (y m d : Int) (hy : 2020 ≤ y) :
    mkDay 2020 m d ≤ mkDay y m d := by
  rcases eq_or_lt_of_le hy with h | h
  · rw [← h]
  · have hcum := cumDays_le_add_one (isLeap 2020) (isLeap y) m.toNat
    have hby : daysBeforeYear 2020 + 1 ≤ daysBeforeYear y := by
      unfold daysBeforeYear
      omega
    unfold mkDay
    omega

/-! C1. -/

/-- C1: for every period parameter, configuration, remote outcome and
current instant, the grand total of the aggregation response equals the
exact sum of the four per-service totals (exact rational equality, hence
within any floating-point tolerance such as 1e-6). -/
theorem grand_total_is_exact_sum (cfg : Config) (vo : VapiOutcome) (ho : HetznerOutcome)
    (pp : Option String) (now : JSDate) :
    (getCostsResponse cfg vo ho pp now).totalMonth =
      (getCostsResponse cfg vo ho pp now).vapi.total +
        (getCostsResponse cfg vo ho pp now).cloudRun.total +
        (getCostsResponse cfg vo ho pp now).chatwoot.total +
        (getCostsResponse cfg vo ho pp now).openclaw.total := rfl

/-! C5. -/

/-- C5 counterexample: the claim says the `all` start is a fixed
historical constant, identical regardless of the current instant; but
two current instants (January 1 2025 and June 1 2025) produce different
`all` starts, because `setFullYear(2020)` keeps the current month, day
and time-of-day. -/
theorem all_start_depends_on_now :
    (getDateRange "all" dJan1).start ≠ (getDateRange "all" dJun1).start := by decide

/-- C5 amended: for period `all` the start is the current instant with
its year replaced by the fixed anchor 2020 — the year is a constant but
the month, day and time-of-day follow the current instant — and the end
is the current instant. -/
theorem all_start_year_anchored (now : JSDate) :
    (getDateRange "all" now).start = toMillis { now with year := 2020 } ∧
      (getDateRange "all" now).«end» = toMillis now := ⟨rfl, rfl⟩

/-! C6. -/

/-- C6: when a service credential is absent, the estimator returns its
static fallback: the VAPI and Hetzner estimators return their zero
fallbacks with the live-data flag false, independently of the remote
outcome (hence deterministic given period and current instant, and no
error reaches the caller — every estimator is a total function); the
Cloud Run and OpenClaw estimators have no credential and always return
the static formula value with the live-data flag false. -/
theorem credential_absent_static_fallback (cfg : Config) (vo : VapiOutcome)
    (ho : HetznerOutcome) (period : String) (now : JSDate) :
    (cfg.vapiApiKey = "" → getVAPICosts cfg vo period now = vapiNoKeyResult) ∧
      (cfg.hetznerApiToken = "" →
        getHetznerCostsReal cfg ho period now = hetznerNoTokenResult now) ∧
      (getCloudRunCosts period now).isRealData = false ∧
      (getCloudRunCosts period now).total = cloudRunStaticTotal period now ∧
      (getOpenClawCosts period now).isRealData = false ∧
      (getOpenClawCosts period now).total = openClawStaticTotal period now := by
  refine ⟨fun h => ?_, fun h => ?_, rfl, ?_, rfl, rfl⟩
  · simp [getVAPICosts, h, vapiNoKeyResult]
  · simp [getHetznerCostsReal, h, hetznerNoTokenResult]
  · simp [getCloudRunCosts, cloudRunStaticTotal]

/-- C6 witness: the theorem applied with both credentials absent, a
network exception on every remote call, period `month` and the concrete
instant January 20 2025. -/
theorem credential_absent_witness :
    cfgNone.vapiApiKey = "" ∧ cfgNone.hetznerApiToken = "" ∧
      getVAPICosts cfgNone .exn "month" dJan20 = vapiNoKeyResult ∧
      getHetznerCostsReal cfgNone .exn "month" dJan20 = hetznerNoTokenResult dJan20 := by
  have h := credential_absent_static_fallback cfgNone .exn .exn "month" dJan20
  exact ⟨rfl, rfl, h.1 rfl, h.2.1 rfl⟩

/-! C7. -/

/-- C7: the aggregation endpoint never fails: for every configuration,
period parameter, remote outcome and instant it returns the success
body containing all four estimates and the grand total (the handler
catch branch is unreachable because every estimator absorbs its own
failure); and whenever an estimator remote call fails (exception,
non-success status or malformed payload), that estimator contributes a
zero-valued estimate. -/
theorem aggregator_absorbs_failures (cfg : Config) (vo : VapiOutcome) (ho : HetznerOutcome)
    (pp : Option String) (now : JSDate) :
    GET cfg vo ho pp now = Except.ok (getCostsResponse cfg vo ho pp now) ∧
      (getCostsResponse cfg vo ho pp now).totalMonth =
        (getCostsResponse cfg vo ho pp now).vapi.total +
          (getCostsResponse cfg vo ho pp now).cloudRun.total +
          (getCostsResponse cfg vo ho pp now).chatwoot.total +
          (getCostsResponse cfg vo ho pp now).openclaw.total ∧
      (vo.isFailure = true → (getCostsResponse cfg vo ho pp now).vapi.total = 0) ∧
      (ho.isFailure = true →
        (getCostsResponse cfg vo ho pp now).chatwoot.total = 0 ∧
          (getCostsResponse cfg vo ho pp now).chatwoot.isRealData = false) := by
  refine ⟨rfl, rfl, fun hv => ?_, fun hh => ?_⟩
  · rcases vo with _ | s | b
    · by_cases hk : cfg.vapiApiKey = "" <;>
        simp [getCostsResponse, getVAPICosts, hk, vapiNoKeyResult]
    · by_cases hk : cfg.vapiApiKey = "" <;>
        simp [getCostsResponse, getVAPICosts, hk, vapiNoKeyResult]
    · rcases b with _ | cs
      · by_cases hk : cfg.vapiApiKey = "" <;>
          simp [getCostsResponse, getVAPICosts, hk, vapiNoKeyResult]
      · simp [VapiOutcome.isFailure] at hv
  · rcases ho with _ | s | servers
    · by_cases ht : cfg.hetznerApiToken = "" <;>
        simp [getCostsResponse, getHetznerCostsReal, ht, hetznerNoTokenResult]
    · by_cases ht : cfg.hetznerApiToken = "" <;>
        simp [getCostsResponse, getHetznerCostsReal, ht, hetznerNoTokenResult]
    · simp [HetznerOutcome.isFailure] at hh

/-- C7 witness: the theorem applied with both remote calls failing by
network exception, both credentials configured, period `month` and the
concrete instant January 20 2025. -/
theorem aggregator_absorbs_witness :
    VapiOutcome.isFailure .exn = true ∧ HetznerOutcome.isFailure .exn = true ∧
      GET { vapiApiKey := "k", hetznerApiToken := "tok" } .exn .exn (some "month") dJan20 =
        Except.ok (getCostsResponse { vapiApiKey := "k", hetznerApiToken := "tok" }
          .exn .exn (some "month") dJan20) ∧
      (getCostsResponse { vapiApiKey := "k", hetznerApiToken := "tok" }
          .exn .exn (some "month") dJan20).vapi.total = 0 ∧
      (getCostsResponse { vapiApiKey := "k", hetznerApiToken := "tok" }
          .exn .exn (some "month") dJan20).chatwoot.total = 0 := by
  have h := aggregator_absorbs_failures { vapiApiKey := "k", hetznerApiToken := "tok" }
    .exn .exn (some "month") dJan20
  exact ⟨rfl, rfl, h.1, h.2.2.1 rfl, (h.2.2.2 rfl).1⟩

/-! C9. -/

/-- C9 counterexample: the claim quantifies over every current instant,
but at the valid instant January 1 2019 — before the fixed anchor year
2020 of the `all` period — the resolved range has end strictly before
start, because `setFullYear(2020)` moves the start into the future. -/
theorem start_le_end_fails_before_anchor :
    d2019.Valid ∧ "all" ∈ (["today", "week", "month", "all"] : List String) ∧
      (getDateRange "all" d2019).«end» < (getDateRange "all" d2019).start := by decide

/-- C9 amended: for every period of the enumeration and every valid
current instant whose year is at least 2020 (the anchor year of the
`all` period), the resolved date range satisfies start ≤ end. -/
theorem date_range_start_le_end (p : String) (now : JSDate)
    (hp : p ∈ (["today", "week", "month", "all"] : List String))
    (hv : now.Valid) (hy : 2020 ≤ now.year) :
    (getDateRange p now).start ≤ (getDateRange p now).«end» := by
  have htod : 0 ≤ timeOfDayMs now := timeOfDayMs_nonneg now hv
  have hday : 1 ≤ now.day := hv.2.2.2.1
  simp only [List.mem_cons, List.mem_singleton, List.not_mem_nil, or_false] at hp
  rcases hp with h | h | h | h <;> subst h
  · simp only [getDateRange_today, toMillis, msPerDay]
    omega
  · have h7 : mkDay now.year now.month (now.day - 7) =
        mkDay now.year now.month now.day - 7 := by
      unfold mkDay
      omega
    simp only [getDateRange_week, toMillis, msPerDay, h7]
    omega
  · have h1 : mkDay now.year now.month 1 ≤ mkDay now.year now.month now.day := by
      unfold mkDay
      omega
    simp only [getDateRange_month, toMillis, msPerDay]
    omega
  · have hmono := mkDay_year_mono now.year now.month now.day hy
    simp only [getDateRange_all, toMillis, msPerDay]
    omega

/-- C9 witness: the amended theorem applied at period `today` and the
valid instant January 20 2025. -/
theorem date_range_start_le_end_witness :
    "today" ∈ (["today", "week", "month", "all"] : List String) ∧ dJan20.Valid ∧
      2020 ≤ dJan20.year ∧
      (getDateRange "today" dJan20).start ≤ (getDateRange "today" dJan20).«end» :=
  ⟨by decide, by decide, by decide,
    date_range_start_le_end "today" dJan20 (by decide) (by decide) (by decide)⟩

/-! C2. -/

/-- C2 counterexample: with a configured key, period `month` at January
20 2025 resolves to a range spanning 19 days (more than the 14-day cap),
yet when the upstream fetch throws, the estimator returns
`limitedTo14Days: false` from its catch branch, contradicting the claim
that the flag is true whenever the range exceeds 14 days. -/
theorem vapi_cap_flag_lost_on_exception :
    cfgKey.vapiApiKey ≠ "" ∧
      vapiMaxHistoryMs <
        (getDateRange "month" dJan20).«end» - (getDateRange "month" dJan20).start ∧
      (getVAPICosts cfgKey .exn "month" dJan20).limitedTo14Days = false := by decide

/-- C2 amended: with a configured key, whenever the resolved range spans
more than 14 days, the effective query start sent upstream equals end
minus exactly 14 days and, unless the fetch throws (in which case the
catch branch resets the flag to false), the returned `limitedTo14Days`
flag is true; whenever the range spans 14 days or fewer, the effective
start equals the resolved start and the returned flag is false. -/
theorem vapi_14day_cap_effective_start (cfg : Config) (outcome : VapiOutcome)
    (period : String) (now : JSDate) (hkey : cfg.vapiApiKey ≠ "") :
    (vapiMaxHistoryMs <
        (getDateRange period now).«end» - (getDateRange period now).start →
      vapiEffectiveStart (getDateRange period now) =
          (getDateRange period now).«end» - vapiMaxHistoryMs ∧
        (outcome ≠ .exn →
          (getVAPICosts cfg outcome period now).limitedTo14Days = true)) ∧
      ((getDateRange period now).«end» - (getDateRange period now).start ≤
          vapiMaxHistoryMs →
        vapiEffectiveStart (getDateRange period now) = (getDateRange period now).start ∧
          (getVAPICosts cfg outcome period now).limitedTo14Days = false) := by
  constructor
  · intro hspan
    have heff : vapiEffectiveStart (getDateRange period now) =
        (getDateRange period now).«end» - vapiMaxHistoryMs := by
      unfold vapiEffectiveStart
      omega
    refine ⟨heff, fun hne => ?_⟩
    have hflag : vapiEffectiveStart (getDateRange period now) >
        (getDateRange period now).start := by
      unfold vapiEffectiveStart
      omega
    rcases outcome with _ | s | b
    · exact absurd rfl hne
    · simp [getVAPICosts, hkey, hflag]
    · rcases b with _ | cs <;> simp [getVAPICosts, hkey, hflag]
  · intro hspan
    have heff : vapiEffectiveStart (getDateRange period now) =
        (getDateRange period now).start := by
      unfold vapiEffectiveStart
      omega
    have hflag : ¬ (vapiEffectiveStart (getDateRange period now) >
        (getDateRange period now).start) := by
      unfold vapiEffectiveStart
      omega
    refine ⟨heff, ?_⟩
    rcases outcome with _ | s | b
    · simp [getVAPICosts, hkey]
    · simp [getVAPICosts, hkey, hflag]
    · rcases b with _ | cs <;> simp [getVAPICosts, hkey, hflag]

/-- C2 witness: the amended theorem applied with a configured key, a
successful empty call list, period `week` (exactly 7 days, under the
cap) at January 20 2025: the effective start equals the resolved start
and the flag is false. -/
theorem vapi_14day_cap_witness :
    cfgKey.vapiApiKey ≠ "" ∧
      (getDateRange "week" dJan20).«end» - (getDateRange "week" dJan20).start ≤
        vapiMaxHistoryMs ∧
      vapiEffectiveStart (getDateRange "week" dJan20) = (getDateRange "week" dJan20).start ∧
      (getVAPICosts cfgKey (.ok (.calls [])) "week" dJan20).limitedTo14Days = false := by
  have h := (vapi_14day_cap_effective_start cfgKey (.ok (.calls [])) "week" dJan20
    (by decide)).2 (by decide)
  exact ⟨by decide, by decide, h.1, h.2⟩

/-! C10. -/

/-- C10 counterexample: the claim covers every value outside the
enumeration, including any arbitrary string, but for the empty string —
which is outside the enumeration — the falsy check `|| 'month'`
substitutes the default period instead of passing the value through. -/
theorem empty_period_gets_default :
    ("" ∉ (["today", "week", "month", "all"] : List String)) ∧ ("month" : String) ≠ "" ∧
      (getCostsResponse cfgNone .exn .exn (some "") dJan20).period = "month" := by
  exact ⟨by decide, by decide, rfl⟩

/-- C10 amended: for every non-empty period value outside the
enumeration, the endpoint does not reject the request and does not
substitute the default: the value is passed through, the date-range
resolver falls through its switch leaving start equal to end, the two
static estimators compute exactly zero totals for the empty range, and
the response echoes the unrecognised period string. -/
theorem unrecognized_period_passthrough (s : String) (cfg : Config) (vo : VapiOutcome)
    (ho : HetznerOutcome) (now : JSDate)
    (hs : s ∉ (["today", "week", "month", "all"] : List String)) (hne : s ≠ "") :
    GET cfg vo ho (some s) now = Except.ok (getCostsResponse cfg vo ho (some s) now) ∧
      (getCostsResponse cfg vo ho (some s) now).period = s ∧
      (getDateRange s now).start = (getDateRange s now).«end» ∧
      (getCostsResponse cfg vo ho (some s) now).cloudRun.total = 0 ∧
      (getCostsResponse cfg vo ho (some s) now).openclaw.total = 0 := by
  simp only [List.mem_cons, List.not_mem_nil, or_false, not_or] at hs
  obtain ⟨h1, h2, h3, h4⟩ := hs
  have hp : parsePeriodParam (some s) = s := by simp [parsePeriodParam, hne]
  have hr : getDateRange s now = { start := toMillis now, «end» := toMillis now } :=
    getDateRange_default s now h1 h2 h3 h4
  refine ⟨rfl, by simp [getCostsResponse, hp], by rw [hr], ?_, ?_⟩
  · simp [getCostsResponse, hp, getCloudRunCosts, hr]
  · simp [getCostsResponse, hp, getOpenClawCosts, hr]

/-- C10 witness: the amended theorem applied to the out-of-enumeration
period string `banana` with no credentials, failing remote calls and
the instant January 20 2025. -/
theorem unrecognized_period_witness :
    (("banana" : String) ∉ (["today", "week", "month", "all"] : List String)) ∧
      ("banana" : String) ≠ "" ∧
      (getCostsResponse cfgNone .exn .exn (some "banana") dJan20).period = "banana" ∧
      (getDateRange "banana" dJan20).start = (getDateRange "banana" dJan20).«end» ∧
      (getCostsResponse cfgNone .exn .exn (some "banana") dJan20).cloudRun.total = 0 ∧
      (getCostsResponse cfgNone .exn .exn (some "banana") dJan20).openclaw.total = 0 := by
  have h := unrecognized_period_passthrough "banana" cfgNone .exn .exn dJan20
    (by decide) (by decide)
  exact ⟨by decide, by decide, h.2.1, h.2.2.1, h.2.2.2.1, h.2.2.2.2⟩

/-! C3. -/

/-- C3 counterexample: for period `all` and a server created June 10
2025 — inside the requested period — evaluated on June 20 2025, the
computed cost is 4.56 (456 hours since the start of the current month at
rate 0.01), strictly more than the 2.40 that the 240 hours since the
server creation would cost: hours before creation are billed. -/
theorem hetzner_all_bills_before_creation :
    (getDateRange "all" dJun20).start ≤ toMillis srvMidMonth.created ∧
      toMillis srvMidMonth.created < (getDateRange "all" dJun20).«end» ∧
      serverPeriodCost "all" (getDateRange "all" dJun20) dJun20 srvMidMonth = 114 / 25 ∧
      (((getDateRange "all" dJun20).«end» - toMillis srvMidMonth.created : Int) : ℚ) /
          (1000 * 60 * 60) * serverPriceHourly srvMidMonth = 12 / 5 ∧
      (12 : ℚ) / 5 < 114 / 25 := by
  have e1 : ((dJun20.year - srvMidMonth.created.year) * 12 +
      (dJun20.month - srvMidMonth.created.month) : Int) = 0 := by decide
  have e2 : (toMillis dJun20 - mkDay dJun20.year dJun20.month 1 * msPerDay : Int) =
      1641600000 := by decide
  have e3 : serverPriceHourly srvMidMonth = 1 / 100 := rfl
  have e4 : serverPriceMonthly srvMidMonth = 100 := rfl
  have e5 : ((getDateRange "all" dJun20).«end» - toMillis srvMidMonth.created : Int) =
      864000000 := by decide
  refine ⟨by decide, by decide, ?_, ?_, by norm_num⟩
  · rw [serverPeriodCost_all_eval, if_pos (by decide), e1, e2, e3, e4]
    norm_num [min_def]
  · rw [e5, e3]
    norm_num

/-- C3 amended: for the periods `today`, `week` and `month`, a server
created inside the requested period accrues cost only from its creation
instant onward — the computed cost never exceeds the hours between
creation and the period end times the hourly rate; for period `all` the
partial current month is billed from the start of the current month,
which can precede the creation instant (see the counterexample). -/
theorem hetzner_prorated_from_creation (period : String) (now : JSDate)
    (server : HetznerServer)
    (hp : period = "today" ∨ period = "week" ∨ period = "month")
    (hin1 : (getDateRange period now).start ≤ toMillis server.created)
    (hin2 : toMillis server.created < (getDateRange period now).«end») :
    serverPeriodCost period (getDateRange period now) now server ≤
      (((getDateRange period now).«end» - toMillis server.created : Int) : ℚ) /
        (1000 * 60 * 60) * serverPriceHourly server := by
  rcases hp with h | h | h <;> subst h
  · rw [serverPeriodCost_other_eval "today" _ now server (by decide) (by decide),
      max_eq_left hin1, if_pos hin2]
  · rw [serverPeriodCost_other_eval "week" _ now server (by decide) (by decide),
      max_eq_left hin1, if_pos hin2]
  · have hsom : (getDateRange "month" now).start = mkDay now.year now.month 1 * msPerDay := rfl
    have hend : (getDateRange "month" now).«end» = toMillis now := rfl
    rw [serverPeriodCost_month_eval, ← hsom, max_eq_left hin1, if_pos hin2, hend]
    exact min_le_left _ _

/-- C3 witness: the amended theorem applied at period `week` on June 20
2025 with a server created June 18 2025 (inside the week) at hourly rate
0.01. -/
theorem hetzner_prorated_witness :
    (getDateRange "week" dJun20).start ≤ toMillis srvJun18.created ∧
      toMillis srvJun18.created < (getDateRange "week" dJun20).«end» ∧
      serverPeriodCost "week" (getDateRange "week" dJun20) dJun20 srvJun18 ≤
        (((getDateRange "week" dJun20).«end» - toMillis srvJun18.created : Int) : ℚ) /
          (1000 * 60 * 60) * serverPriceHourly srvJun18 :=
  ⟨by decide, by decide,
    hetzner_prorated_from_creation "week" dJun20 srvJun18 (Or.inr (Or.inl rfl))
      (by decide) (by decide)⟩

/-! C4. -/

/-- C4 counterexample: the claim fixes the threshold at hour 666.67, but
the exact cap boundary is 5.00 / 0.0075 = 2000/3 ≈ 666.667: at elapsed
hour 666.668 — before 666.67 — the computed cost is already the capped
5.00 and not elapsed hours times 0.0075 (which would be 5.00001). -/
theorem monthly_cap_threshold_gap :
    toMillis srvMonthStart.created = mkDay dHour666.year dHour666.month 1 * msPerDay ∧
      serverPriceMonthly srvMonthStart = 5 ∧
      serverPriceHourly srvMonthStart = 3 / 400 ∧
      elapsedMonthHours dHour666 < 66667 / 100 ∧
      serverPeriodCost "month" (getDateRange "month" dHour666) dHour666 srvMonthStart = 5 ∧
      serverPeriodCost "month" (getDateRange "month" dHour666) dHour666 srvMonthStart ≠
        elapsedMonthHours dHour666 * (3 / 400) := by
  have e1 : (toMillis dHour666 - mkDay dHour666.year dHour666.month 1 * msPerDay : Int) =
      2400004800 := by decide
  have e2 : (toMillis dHour666 - max (toMillis srvMonthStart.created)
      (mkDay dHour666.year dHour666.month 1 * msPerDay) : Int) = 2400004800 := by decide
  have hel : elapsedMonthHours dHour666 = ((2400004800 : Int) : ℚ) / (1000 * 60 * 60) := by
    unfold elapsedMonthHours
    rw [e1]
  have hcost : serverPeriodCost "month" (getDateRange "month" dHour666) dHour666
      srvMonthStart = 5 := by
    rw [serverPeriodCost_month_eval, if_pos (by decide), e2,
      show serverPriceHourly srvMonthStart = 3 / 400 from rfl,
      show serverPriceMonthly srvMonthStart = 5 from rfl]
    norm_num [min_def]
  refine ⟨by decide, rfl, rfl, ?_, hcost, ?_⟩
  · rw [hel]
    norm_num
  · rw [hcost, hel]
    norm_num

/-- C4 amended: for period `month` the computed cost of any server never
exceeds its published monthly rate (assumed non-negative); and for a
server created exactly at the start of the current month with monthly
rate 5.00 and hourly rate 0.0075, the cost equals elapsed hours times
0.0075 up to the exact threshold 5.00 / 0.0075 = 2000/3 hours, and
equals 5.00 exactly from that threshold on. -/
theorem monthly_cap_never_exceeds :
    (∀ (now : JSDate) (server : HetznerServer), 0 ≤ serverPriceMonthly server →
        serverPeriodCost "month" (getDateRange "month" now) now server ≤
          serverPriceMonthly server) ∧
      (∀ (now : JSDate) (server : HetznerServer),
        toMillis server.created = mkDay now.year now.month 1 * msPerDay →
        serverPriceHourly server = 3 / 400 →
        serverPriceMonthly server = 5 →
        toMillis server.created < toMillis now →
        (elapsedMonthHours now ≤ 2000 / 3 →
            serverPeriodCost "month" (getDateRange "month" now) now server =
              elapsedMonthHours now * (3 / 400)) ∧
          (2000 / 3 ≤ elapsedMonthHours now →
            serverPeriodCost "month" (getDateRange "month" now) now server = 5)) := by
  constructor
  · intro now server hm
    rw [serverPeriodCost_month_eval]
    split
    · exact min_le_right _ _
    · exact hm
  · intro now server hc hh hm hlt
    have hsom : (getDateRange "month" now).start = mkDay now.year now.month 1 * msPerDay := rfl
    have hend : (getDateRange "month" now).«end» = toMillis now := rfl
    have hmax2 : max (toMillis server.created) (mkDay now.year now.month 1 * msPerDay) =
        toMillis server.created := by
      rw [hc]
      exact max_self _
    have hguard : max (toMillis server.created) (getDateRange "month" now).start <
        (getDateRange "month" now).«end» := by
      rw [hsom, hmax2, hend]
      exact hlt
    have hhours : ((toMillis now - max (toMillis server.created)
          (mkDay now.year now.month 1 * msPerDay) : Int) : ℚ) / (1000 * 60 * 60) =
        elapsedMonthHours now := by
      rw [hmax2, hc]
      rfl
    rw [serverPeriodCost_month_eval, if_pos hguard, hhours, hh, hm]
    constructor
    · intro hle
      have hb : elapsedMonthHours now * (3 / 400) ≤ 5 := by linarith
      exact min_eq_left hb
    · intro hge
      have hb : (5 : ℚ) ≤ elapsedMonthHours now * (3 / 400) := by linarith
      exact min_eq_right hb

/-- C4 witness: the theorem applied on January 5 2025 (96 elapsed
hours, under the threshold) to the worked-example server: the cost is
capped by the monthly rate and equals 96 times 0.0075. -/
theorem monthly_cap_witness :
    0 ≤ serverPriceMonthly srvMonthStart ∧
      serverPeriodCost "month" (getDateRange "month" dJan5) dJan5 srvMonthStart ≤
        serverPriceMonthly srvMonthStart ∧
      elapsedMonthHours dJan5 ≤ 2000 / 3 ∧
      serverPeriodCost "month" (getDateRange "month" dJan5) dJan5 srvMonthStart =
        elapsedMonthHours dJan5 * (3 / 400) := by
  have hm : (0 : ℚ) ≤ serverPriceMonthly srvMonthStart := by
    rw [show serverPriceMonthly srvMonthStart = 5 from rfl]
    norm_num
  have hel : elapsedMonthHours dJan5 = ((345600000 : Int) : ℚ) / (1000 * 60 * 60) := by
    unfold elapsedMonthHours
    rw [show (toMillis dJan5 - mkDay dJan5.year dJan5.month 1 * msPerDay : Int) =
      345600000 from by decide]
  have hle : elapsedMonthHours dJan5 ≤ 2000 / 3 := by
    rw [hel]
    norm_num
  exact ⟨hm, monthly_cap_never_exceeds.1 dJan5 srvMonthStart hm, hle,
    (monthly_cap_never_exceeds.2 dJan5 srvMonthStart (by decide) rfl rfl (by decide)).1 hle⟩

/-! C8. -/

/-- C8 counterexample: at a concrete configuration (token set, one
server whose January cost hits its monthly cap of 5 in the provider
native currency), the returned total is exactly the native-currency
amount 5, and no fixed exchange rate other than 1 relates the returned
total to the native per-server costs — no currency conversion is
performed. -/
theorem no_conversion_counterexample :
    (getHetznerCostsReal cfgTok (.ok [srvCap]) "month" dJan26).total = 5 ∧
      serverPeriodCost "month" (getDateRange "month" dJan26) dJan26 srvCap = 5 ∧
      ¬ ∃ rate : ℚ, rate ≠ 1 ∧
        (getHetznerCostsReal cfgTok (.ok [srvCap]) "month" dJan26).total =
          hetznerConvertedTotalSpec rate "month" (getDateRange "month" dJan26) dJan26
            [srvCap] := by
  have h2 : serverPeriodCost "month" (getDateRange "month" dJan26) dJan26 srvCap = 5 := by
    rw [serverPeriodCost_month_eval, if_pos (by decide),
      show (toMillis dJan26 - max (toMillis srvCap.created)
        (mkDay dJan26.year dJan26.month 1 * msPerDay) : Int) = 2160000000 from by decide,
      show serverPriceHourly srvCap = 1 / 100 from rfl,
      show serverPriceMonthly srvCap = 5 from rfl]
    norm_num [min_def]
  have h1 : (getHetznerCostsReal cfgTok (.ok [srvCap]) "month" dJan26).total = 5 := by
    rw [show (getHetznerCostsReal cfgTok (.ok [srvCap]) "month" dJan26).total =
      0 + serverPeriodCost "month" (getDateRange "month" dJan26) dJan26 srvCap from rfl, h2]
    norm_num
  refine ⟨h1, h2, ?_⟩
  rintro ⟨rate, hne, heq⟩
  rw [h1] at heq
  simp only [hetznerConvertedTotalSpec, List.foldl_cons, List.foldl_nil, h2, zero_add] at heq
  exact hne (by linarith)

/-- C8 amended: the virtual-machine host estimator performs no currency
conversion: on a successful inventory fetch the returned total equals
the sum of the per-server period costs computed from the provider
native-currency prices unchanged, i.e. the spec-modelled converted total
at the identity rate 1. -/
theorem hetzner_total_identity_rate (cfg : Config) (servers : List HetznerServer)
    (period : String) (now : JSDate) (h : cfg.hetznerApiToken ≠ "") :
    (getHetznerCostsReal cfg (.ok servers) period now).total =
      hetznerConvertedTotalSpec 1 period (getDateRange period now) now servers := by
  simp [getHetznerCostsReal, h, hetznerConvertedTotalSpec]

/-- C8 witness: the amended theorem applied to the concrete one-server
inventory at period `month`, January 26 2025. -/
theorem hetzner_total_identity_rate_witness :
    cfgTok.hetznerApiToken ≠ "" ∧
      (getHetznerCostsReal cfgTok (.ok [srvCap]) "week" dJan26).total =
        hetznerConvertedTotalSpec 1 "week" (getDateRange "week" dJan26) dJan26 [srvCap] :=
  ⟨by decide, hetzner_total_identity_rate cfgTok [srvCap] "week" dJan26 (by decide)⟩

end GpsDashboard
